import Mathlib

/-!
Shallow embedding of the urban-data collector
(`urban_data_parser.py`, with `gf.py` an earlier revision of the same
pipeline).  The pipeline queries the Overpass API for organizations of a
fixed category list in a city, normalizes the returned JSON elements into
organization records, and stores them in a SQLite table with an
`INSERT OR IGNORE` under a five-column `UNIQUE` constraint.

Modelling conventions:
* JSON elements become the `OsmElement` structure: an association list of
  tags, optional direct `lat`/`lon` values (presence of the keys in the
  JSON object), and an optional `center` object.
* Coordinates are `Rat`; the Python code never computes with them, it only
  carries them through, so any type with decidable equality is faithful.
* Python `dict.get(k, d)` becomes `tagGetD`; `dict.get(k)` used in a
  boolean position becomes `py_truthy` of the `Option` lookup.
* Python `str.strip()` becomes `pyStrip` (drop whitespace characters from
  both ends); `str.capitalize()` becomes `pyCapitalize` (Lean's
  `Char.toUpper`/`Char.toLower` are ASCII-only while Python's are
  Unicode-aware; no theorem below depends on the case mapping of any
  particular non-ASCII character).
* The SQLite table becomes a list of rows in insertion order; the
  `AUTOINCREMENT` id column carries no information beyond the position and
  is omitted.  `INSERT OR IGNORE` under the `UNIQUE(name, address, lat,
  lon, type)` constraint becomes `insertOrIgnore`, which appends the row
  exactly when no row with the same five-tuple is present (a row is
  exactly its five data columns, so row equality is key equality).
* The request executor (`make_overpass_request`) performs network I/O; the
  retry controller is modelled over an abstract executor
  `exec : Nat → Option (List OrgRecord)` giving the outcome of the k-th
  endpoint call (`none` = any caught failure, `some orgs` = HTTP success
  with `orgs` the parsed organizations, possibly `[]`).  The controller
  threads a call counter and accumulates the list of backoff sleep
  durations it performs, so call counts and sleeps are observable.
-/

/-- A point returned in the `center` field of an Overpass way element. -/
structure OsmCenter where
  lat : Rat
  lon : Rat
deriving DecidableEq, Repr

/-- A raw Overpass JSON element: its `tags` object, the optional direct
`lat`/`lon` keys of a node, and the optional `center` object of a way. -/
structure OsmElement where
  tags : List (String × String)
  lat : Option Rat
  lon : Option Rat
  center : Option OsmCenter
deriving DecidableEq, Repr

/-- A normalized organization record: the five data columns of the
`organizations` table. -/
structure OrgRecord where
  name : String
  address : String
  lat : Rat
  lon : Rat
  type : String
deriving DecidableEq, Repr

/-- Python `tags.get(k, d)` on the tags dictionary. -/
def tagGetD (tags : List (String × String)) (k d : String) : String :=
  (tags.lookup k).getD d

/-- Python truthiness of `tags.get(k)`: `None` and `""` are falsy. -/
def py_truthy (o : Option String) : Bool :=
  match o with
  | some s => s != ""
  | none => false

/-- Python `str.strip()`: remove whitespace from both ends. -/
def pyStrip (s : String) : String :=
  String.mk
    (((s.data.dropWhile Char.isWhitespace).reverse.dropWhile
      Char.isWhitespace).reverse)

/-- The coordinate extraction of `parse_organization_element`:
`if 'lat' in element and 'lon' in element: ... elif 'center' in element:
... else: return None`. -/
def elementCoords (element : OsmElement) : Option (Rat × Rat) :=
  match element.lat, element.lon with
  | some la, some lo => some (la, lo)
  | _, _ =>
    match element.center with
    | some c => some (c.lat, c.lon)
    | none => none

/-- `parse_organization_element(element, category, city)` of
`urban_data_parser.py` (identical inline in `gf.py`): trim the name tag and
discard nameless elements, take direct coordinates if both keys are
present, else the centre, else discard; build the address from a truthy
street tag plus house number, falling back to the city; attach the
caller's category. -/
def parse_organization_element (element : OsmElement) (category city : String) :
    Option OrgRecord :=
  let name := pyStrip (tagGetD element.tags "name" "")
  if name = "" then none
  else
    match elementCoords element with
    | none => none
    | some (lat, lon) =>
      let address_parts : List String :=
        if py_truthy (element.tags.lookup "addr:street") then
          let street := tagGetD element.tags "addr:street" ""
          let housenumber := tagGetD element.tags "addr:housenumber" ""
          [pyStrip (street ++ " " ++ housenumber)]
        else []
      let address :=
        if address_parts.isEmpty then city
        else String.intercalate ", " address_parts
      some { name := name, address := address, lat := lat, lon := lon,
             type := category }

/-- The category mapping dictionary of `build_overpass_query`. -/
def category_mapping : List (String × String) :=
  [("кафе", "amenity=cafe"),
   ("магазин", "shop=supermarket"),
   ("аптека", "amenity=pharmacy"),
   ("школа", "amenity=school"),
   ("музей", "tourism=museum")]

/-- `category_mapping.get(category, 'amenity=yes')`. -/
def categoryTag (category : String) : String :=
  (category_mapping.lookup category).getD "amenity=yes"

/-- `build_overpass_query(city, category)`: the rendered Overpass QL text
with the city name and tag interpolated verbatim. -/
def build_overpass_query (city category : String) : String :=
  let tag := categoryTag category
  "\n    [out:json][timeout:90];\n    area[name=\"" ++ city ++
    "\"]->.searchArea;\n    (\n      node[" ++ tag ++
    "](area.searchArea);\n      way[" ++ tag ++
    "](area.searchArea);\n    );\n    out center;\n    "

/-- The response-processing loop of `make_overpass_request`: parse every
element, keeping the non-`None` results in order. -/
def process_elements (elements : List OsmElement) (category city : String) :
    List OrgRecord :=
  elements.filterMap (fun e => parse_organization_element e category city)

/-- `make_overpass_request` on an abstract HTTP outcome: `none` models any
caught exception (HTTP error, connection error, timeout, decode failure),
`some elements` a successful JSON response, whose elements are parsed. -/
def make_overpass_request (response : Option (List OsmElement))
    (category city : String) : Option (List OrgRecord) :=
  response.map (fun els => process_elements els category city)

/-- The fixed endpoint list of `search_organizations_overpass`, in priority
order: primary, then two mirrors. -/
def servers : List String :=
  ["https://overpass-api.de/api/interpreter",
   "https://overpass.kumi.systems/api/interpreter",
   "http://overpass.openstreetmap.ru/api/interpreter"]

/-- The inner `for server_url in servers` loop of one retry attempt: invoke
the executor once per remaining endpoint, returning the first non-`none`
result.  The `Nat` argument is the index of the next executor call; the
returned `Nat` is the index after the loop, so the difference counts the
calls made. -/
def tryServers (ex : Nat → Option (List OrgRecord)) :
    List String → Nat → Option (List OrgRecord) × Nat
  | [], c => (none, c)
  | _ :: rest, c =>
    match ex c with
    | some orgs => (some orgs, c + 1)
    | none => tryServers ex rest (c + 1)

/-- The outer `for attempt in range(retry_count)` loop of
`search_organizations_overpass`, over the list of remaining attempt
indices.  State: next executor call index, and the list of backoff sleep
durations performed so far (`time.sleep(30 * (attempt + 1))` is executed
after a fully failed attempt when `attempt < retry_count - 1`). -/
def searchAttempts (ex : Nat → Option (List OrgRecord)) (retry_count : Nat) :
    List Nat → Nat → List Nat → List OrgRecord × Nat × List Nat
  | [], c, sleeps => ([], c, sleeps)
  | attempt :: rest, c, sleeps =>
    match tryServers ex servers c with
    | (some orgs, c2) => (orgs, c2, sleeps)
    | (none, c2) =>
      if attempt < retry_count - 1 then
        searchAttempts ex retry_count rest c2 (sleeps ++ [30 * (attempt + 1)])
      else
        searchAttempts ex retry_count rest c2 sleeps

/-- `search_organizations_overpass(city, category, retry_count)`, abstracted
over the request executor: returns the organizations list the Python
function returns, together with the total number of executor calls made and
the list of sleep durations performed, in order. -/
def search_organizations_overpass (ex : Nat → Option (List OrgRecord))
    (retry_count : Nat := 5) : List OrgRecord × Nat × List Nat :=
  searchAttempts ex retry_count (List.range retry_count) 0 []

/-- The `organizations` table: its rows in insertion order.  A row is its
five data columns, which are exactly the columns of the `UNIQUE`
constraint. -/
abbrev Table := List OrgRecord

/-- `create_database()`: `CREATE TABLE IF NOT EXISTS` keeps an existing
table and creates an empty one otherwise. -/
def create_database (existing : Option Table) : Table :=
  existing.getD []

/-- One `INSERT OR IGNORE INTO organizations ... VALUES (?, ?, ?, ?, ?)`:
the row is appended exactly when no row with the same
(name, address, lat, lon, type) tuple is present. -/
def insertOrIgnore (t : Table) (r : OrgRecord) : Table :=
  if r ∈ t then t else t ++ [r]

/-- `save_to_database(organizations)`: early return on an empty batch,
otherwise one `INSERT OR IGNORE` per record, incrementing `saved_count`
after each statement that raises no exception (in this model, every one).
Returns the final table and the `saved_count` the code prints. -/
def save_to_database (t : Table) (organizations : List OrgRecord) :
    Table × Nat :=
  if organizations.isEmpty then (t, 0)
  else organizations.foldl
    (fun acc org => (insertOrIgnore acc.1 org, acc.2 + 1)) (t, 0)

/-- Python `str.capitalize()`: first character uppercased, the rest
lowercased (ASCII case mapping in this model). -/
def pyCapitalize (s : String) : String :=
  match s.data with
  | [] => ""
  | ch :: rest => String.mk (ch.toUpper :: rest.map Char.toLower)

/-- `setup_city()`, abstracted over the two inputs: the `--city` argument
(`none` when the flag is absent) and the line the interactive prompt would
read.  `if args.city:` is Python truthiness, so an absent or empty flag
falls through to the prompt branch. -/
def setup_city (flag : Option String) (promptInput : String) : String :=
  if py_truthy flag then pyCapitalize (pyStrip (flag.getD ""))
  else
    let city := pyCapitalize (pyStrip promptInput)
    if city != "" then city else "Ярославль"

/-- The fixed category list of `main`, in iteration order. -/
def categories : List String :=
  ["кафе", "магазин", "музей", "школа", "аптека"]

/-- The accumulation loop of `main`: run the retry controller once per
category (with the default `retry_count = 5`) and concatenate the results,
given a per-category executor. -/
def collect_all (execFor : String → Nat → Option (List OrgRecord)) :
    List OrgRecord :=
  (categories.map
    (fun c => (search_organizations_overpass (execFor c) 5).1)).flatten

/-- The single point feature of the end-to-end scenario: name tag
"Кафе Уют", direct coordinates (57.62, 39.89), no address tags. -/
def elem_c2 : OsmElement :=
  { tags := [("name", "Кафе Уют")], lat := some 57.62, lon := some 39.89,
    center := none }

/-- The row the end-to-end scenario is expected to store. -/
def row_c2 : OrgRecord :=
  { name := "Кафе Уют", address := "Тест", lat := 57.62, lon := 39.89,
    type := "кафе" }

/-- A feature whose street tag is present but empty: the code's truthiness
test sends it to the city-fallback branch. -/
def elem_c6 : OsmElement :=
  { tags := [("name", "X"), ("addr:street", ""), ("addr:housenumber", "10")],
    lat := some 1, lon := some 2, center := none }

/-- A feature with street and house-number tags, as in the spec's address
example. -/
def elem_c6w : OsmElement :=
  { tags := [("name", "Кафе Уют"), ("addr:street", "Ленина"),
             ("addr:housenumber", "10")],
    lat := some 1, lon := some 2, center := none }

/-- A feature carrying only a `lat` key and no centre. -/
def elem_c10 : OsmElement :=
  { tags := [("name", "A")], lat := some 1, lon := none, center := none }

/-!  ## Supporting lemmas  -/

/-- `elementCoords` is `none` exactly when the element has neither both
direct coordinate keys nor a centre. -/
theorem elementCoords_eq_none_iff (e : OsmElement) :
    elementCoords e = none ↔
      (e.lat = none ∨ e.lon = none) ∧ e.center = none := by
  unfold elementCoords
  rcases e with ⟨tags, la, lo, ctr⟩
  cases la <;> cases lo <;> cases ctr <;> simp

/-- When at least one direct coordinate key is missing, `elementCoords`
falls through to the centre. -/
theorem elementCoords_of_missing (e : OsmElement)
    (h : e.lat = none ∨ e.lon = none) :
    elementCoords e = e.center.map (fun c => (c.lat, c.lon)) := by
  unfold elementCoords
  rcases e with ⟨tags, la, lo, ctr⟩
  cases la <;> cases lo <;> cases ctr <;> simp_all

/-- Unfolding lemma for one step of the attempt loop. -/
theorem searchAttempts_cons (ex : Nat → Option (List OrgRecord))
    (R attempt : Nat) (rest : List Nat) (c : Nat) (sleeps : List Nat) :
    searchAttempts ex R (attempt :: rest) c sleeps =
      match tryServers ex servers c with
      | (some orgs, c2) => (orgs, c2, sleeps)
      | (none, c2) =>
        if attempt < R - 1 then
          searchAttempts ex R rest c2 (sleeps ++ [30 * (attempt + 1)])
        else searchAttempts ex R rest c2 sleeps := rfl

/-- One pass over the three endpoints where every call fails. -/
theorem tryServers_fail (ex : Nat → Option (List OrgRecord)) (c : Nat)
    (h0 : ex c = none) (h1 : ex (c + 1) = none) (h2 : ex (c + 2) = none) :
    tryServers ex servers c = (none, c + 3) := by
  simp only [servers, tryServers, h0, h1, h2]

/-- One pass over the three endpoints where the first `j` calls fail and
call `j` succeeds. -/
theorem tryServers_succ (ex : Nat → Option (List OrgRecord)) (c j : Nat)
    (res : List OrgRecord) (hj : j < 3)
    (hfail : ∀ i, i < j → ex (c + i) = none) (hs : ex (c + j) = some res) :
    tryServers ex servers c = (some res, c + j + 1) := by
  interval_cases j
  · simp only [Nat.add_zero] at hs
    simp [servers, tryServers, hs]
  · have h0 : ex c = none := by
      have := hfail 0 (by omega)
      simpa using this
    simp [servers, tryServers, h0, hs]
  · have h0 : ex c = none := by
      have := hfail 0 (by omega)
      simpa using this
    have h1 : ex (c + 1) = none := hfail 1 (by omega)
    simp [servers, tryServers, h0, h1, hs]

/-- Main invariant of the retry loop: starting the attempt loop at attempt
index `a` (so the next executor call is call `3 * a`), with `d` fully
failing attempts left before the succeeding one, the loop returns the
successful result after call `N`, a total of `N + 1` calls, and appends one
`30 * k` backoff sleep for each fully failed attempt `k - 1`. -/
theorem searchAttempts_success (ex : Nat → Option (List OrgRecord)) :
    ∀ (d a R N : Nat) (sleeps : List Nat) (res : List OrgRecord),
      (∀ k, k < N → ex k = none) → ex N = some res →
      a + d = N / 3 → N < 3 * R →
      searchAttempts ex R (List.range' a (R - a)) (3 * a) sleeps =
        (res, N + 1, sleeps ++ (List.range' (a + 1) d).map (fun k => 30 * k)) := by
  intro d
  induction d with
  | zero =>
    intro a R N sleeps res hfail hsucc ha hN
    have haN : a = N / 3 := by omega
    have hjlt : N % 3 < 3 := by omega
    have hNeq : 3 * a + N % 3 = N := by omega
    have haR : a < R := by omega
    have hrange : List.range' a (R - a) = a :: List.range' (a + 1) (R - (a + 1)) := by
      have hm : R - a = (R - (a + 1)) + 1 := by omega
      rw [hm, List.range'_succ]
    rw [hrange, searchAttempts_cons]
    have htry : tryServers ex servers (3 * a) = (some res, N + 1) := by
      have := tryServers_succ ex (3 * a) (N % 3) res hjlt
        (fun i hi => hfail (3 * a + i) (by omega))
        (by rw [hNeq]; exact hsucc)
      rw [hNeq] at this
      exact this
    simp [htry, List.range']
  | succ d ih =>
    intro a R N sleeps res hfail hsucc ha hN
    have hR : a < R - 1 := by omega
    have hrange : List.range' a (R - a) = a :: List.range' (a + 1) (R - (a + 1)) := by
      have hm : R - a = (R - (a + 1)) + 1 := by omega
      rw [hm, List.range'_succ]
    rw [hrange, searchAttempts_cons]
    have htry : tryServers ex servers (3 * a) = (none, 3 * a + 3) :=
      tryServers_fail ex (3 * a)
        (hfail (3 * a) (by omega))
        (hfail (3 * a + 1) (by omega))
        (hfail (3 * a + 2) (by omega))
    simp only [htry, if_pos hR]
    have step := ih (a + 1) R N (sleeps ++ [30 * (a + 1)]) res hfail hsucc
      (by omega) hN
    rw [show 3 * a + 3 = 3 * (a + 1) by ring, step, List.range'_succ]
    simp [List.append_assoc]

/-- All executor calls failing makes one endpoint pass fail. -/
theorem tryServers_all_fail (ex : Nat → Option (List OrgRecord))
    (h : ∀ k, ex k = none) :
    ∀ (l : List String) (c : Nat), tryServers ex l c = (none, c + l.length) := by
  intro l
  induction l with
  | nil => intro c; simp [tryServers]
  | cons s rest ih =>
    intro c
    simp only [tryServers, h c, ih (c + 1), List.length_cons, Prod.mk.injEq]
    exact ⟨trivial, by omega⟩

/-- All executor calls failing makes the whole retry loop return `[]`. -/
theorem searchAttempts_exhaust (ex : Nat → Option (List OrgRecord)) (R : Nat)
    (h : ∀ k, ex k = none) :
    ∀ (attempts : List Nat) (c : Nat) (sleeps : List Nat),
      (searchAttempts ex R attempts c sleeps).1 = [] := by
  intro attempts
  induction attempts with
  | nil => intro c sleeps; rfl
  | cons a rest ih =>
    intro c sleeps
    rw [searchAttempts_cons, tryServers_all_fail ex h servers c]
    by_cases hc : a < R - 1
    · simp [hc, ih]
    · simp [hc, ih]

/-- A per-category executor that always fails. -/
def noExec : String → Nat → Option (List OrgRecord) := fun _ _ => none

/-!  ## Claim theorems  -/

/-- C9: each of the five known labels maps to its documented tag
expression, and every other label maps to the fallback `amenity=yes`. -/
theorem category_mapper_spec (c : String)
    (h : c ≠ "кафе" ∧ c ≠ "магазин" ∧ c ≠ "аптека" ∧ c ≠ "школа" ∧
      c ≠ "музей") :
    categoryTag "кафе" = "amenity=cafe" ∧
    categoryTag "магазин" = "shop=supermarket" ∧
    categoryTag "аптека" = "amenity=pharmacy" ∧
    categoryTag "школа" = "amenity=school" ∧
    categoryTag "музей" = "tourism=museum" ∧
    categoryTag c = "amenity=yes" := by
  obtain ⟨h1, h2, h3, h4, h5⟩ := h
  refine ⟨rfl, rfl, rfl, rfl, rfl, ?_⟩
  have e1 : (c == "кафе") = false := beq_eq_false_iff_ne.mpr h1
  have e2 : (c == "магазин") = false := beq_eq_false_iff_ne.mpr h2
  have e3 : (c == "аптека") = false := beq_eq_false_iff_ne.mpr h3
  have e4 : (c == "школа") = false := beq_eq_false_iff_ne.mpr h4
  have e5 : (c == "музей") = false := beq_eq_false_iff_ne.mpr h5
  simp [categoryTag, category_mapping, List.lookup, e1, e2, e3, e4, e5]

/-- Witness for C9 at the unknown label "банк". -/
theorem category_mapper_spec_witness :
    ("банк" ≠ "кафе" ∧ "банк" ≠ "магазин" ∧ "банк" ≠ "аптека" ∧
      "банк" ≠ "школа" ∧ "банк" ≠ "музей") ∧
    categoryTag "банк" = "amenity=yes" :=
  ⟨by decide, (category_mapper_spec "банк" (by decide)).2.2.2.2.2⟩

/-- C5: the normalizer returns no record exactly when the trimmed name tag
is empty (absent names read as `""`), or the element has neither both
direct coordinate keys nor a centre. -/
theorem normalizer_discard_iff (e : OsmElement) (category city : String) :
    parse_organization_element e category city = none ↔
      (pyStrip (tagGetD e.tags "name" "") = "" ∨
        ((e.lat = none ∨ e.lon = none) ∧ e.center = none)) := by
  unfold parse_organization_element
  by_cases hn : pyStrip (tagGetD e.tags "name" "") = ""
  · simp [hn]
  · simp only [hn, if_false, false_or]
    cases hc : elementCoords e with
    | none =>
      simp only [hc]
      rw [← elementCoords_eq_none_iff]
      simp [hc]
    | some p =>
      obtain ⟨la, lo⟩ := p
      simp only [hc]
      rw [← elementCoords_eq_none_iff]
      simp [hc]

/-- Inversion: when the normalizer does produce a record, its fields are
the trimmed name, the extracted coordinates, the street-or-city address,
and the caller's category. -/
theorem parse_some_char (e : OsmElement) (category city : String)
    (r : OrgRecord)
    (h : parse_organization_element e category city = some r) :
    r.name = pyStrip (tagGetD e.tags "name" "") ∧
    elementCoords e = some (r.lat, r.lon) ∧
    r.address =
      (if py_truthy (e.tags.lookup "addr:street") then
        pyStrip ((tagGetD e.tags "addr:street" "") ++ " " ++
          (tagGetD e.tags "addr:housenumber" ""))
      else city) ∧
    r.type = category := by
  unfold parse_organization_element at h
  by_cases hn : pyStrip (tagGetD e.tags "name" "") = ""
  · simp [hn] at h
  · cases hc : elementCoords e with
    | none => simp [hn, hc] at h
    | some p =>
      obtain ⟨la, lo⟩ := p
      simp only [hn, if_false, hc] at h
      by_cases hs : py_truthy (e.tags.lookup "addr:street")
      · simp only [hs, if_true, List.isEmpty_cons, if_false,
          Option.some.injEq] at h
        subst h
        simp [hc, hs, String.intercalate, String.intercalate.go]
      · simp only [hs, Bool.false_eq_true, if_false, List.isEmpty_nil,
          if_true, Option.some.injEq] at h
        subst h
        simp [hc, hs]

/-- C10: a feature carrying exactly one of the `lat`/`lon` keys has no
direct coordinates: it is discarded when it has no centre, and its record's
coordinates come from the centre when it has one. -/
theorem direct_coords_need_both (e : OsmElement) (category city : String)
    (h : (e.lat.isSome ∧ e.lon = none) ∨ (e.lat = none ∧ e.lon.isSome)) :
    (e.center = none → parse_organization_element e category city = none) ∧
    (∀ ctr r, e.center = some ctr →
      parse_organization_element e category city = some r →
      r.lat = ctr.lat ∧ r.lon = ctr.lon) := by
  have hmiss : e.lat = none ∨ e.lon = none := by
    rcases h with ⟨_, h2⟩ | ⟨h1, _⟩
    · exact Or.inr h2
    · exact Or.inl h1
  have hco := elementCoords_of_missing e hmiss
  constructor
  · intro hc
    rw [normalizer_discard_iff]
    exact Or.inr ⟨hmiss, hc⟩
  · intro ctr r hc hr
    obtain ⟨_, hcoords, _, _⟩ := parse_some_char e category city r hr
    rw [hco, hc] at hcoords
    simp only [Option.map_some', Option.some.injEq, Prod.mk.injEq] at hcoords
    exact ⟨hcoords.1.symm, hcoords.2.symm⟩

/-- Witness for C10: a lat-only, centre-less feature is discarded. -/
theorem direct_coords_need_both_witness :
    parse_organization_element elem_c10 "кафе" "Тест" = none :=
  (direct_coords_need_both elem_c10 "кафе" "Тест"
    (Or.inl ⟨by decide, rfl⟩)).1 rfl

/-- Counterexample to C6 as stated: `elem_c6` carries a street tag (the
key is present, with value `""`), yet the produced address is the city
"Ярославль", not the trimmed concatenation of street and house number
(which would be "10").  The code tests Python truthiness of the street
value, not presence of the key. -/
theorem address_rule_counterexample :
    elem_c6.tags.lookup "addr:street" = some "" ∧
    parse_organization_element elem_c6 "кафе" "Ярославль" =
      some { name := "X", address := "Ярославль", lat := 1, lon := 2,
             type := "кафе" } ∧
    "Ярославль" ≠ pyStrip ((tagGetD elem_c6.tags "addr:street" "") ++ " " ++
      (tagGetD elem_c6.tags "addr:housenumber" "")) := by
  refine ⟨rfl, rfl, ?_⟩
  decide

/-- C6 amended: whenever the normalizer returns a record, its address is
the trimmed concatenation of the street and house-number tags when the
street tag is present **with a non-empty value** (Python truthiness), and
the queried city name otherwise (street tag absent or empty). -/
theorem address_rule_amended (e : OsmElement) (category city : String)
    (r : OrgRecord)
    (h : parse_organization_element e category city = some r) :
    r.address =
      if py_truthy (e.tags.lookup "addr:street") then
        pyStrip ((tagGetD e.tags "addr:street" "") ++ " " ++
          (tagGetD e.tags "addr:housenumber" ""))
      else city :=
  (parse_some_char e category city r h).2.2.1

/-- Witness for the amended C6, at the spec's own example: street "Ленина"
and house number "10" give address "Ленина 10", and the nameless-street
feature of the end-to-end scenario falls back to the queried city. -/
theorem address_rule_amended_witness :
    (parse_organization_element elem_c6w "кафе" "Ярославль" =
      some { name := "Кафе Уют", address := "Ленина 10", lat := 1, lon := 2,
             type := "кафе" }) ∧
    ({ name := "Кафе Уют", address := "Ленина 10", lat := 1, lon := 2,
       type := "кафе" } : OrgRecord).address =
      (if py_truthy (elem_c6w.tags.lookup "addr:street") then
        pyStrip ((tagGetD elem_c6w.tags "addr:street" "") ++ " " ++
          (tagGetD elem_c6w.tags "addr:housenumber" ""))
      else "Ярославль") :=
  ⟨rfl, address_rule_amended elem_c6w "кафе" "Ярославль" _ rfl⟩

/-- Counterexample to C8 as stated: the whitespace-only flag "   " is
truthy, so the flag branch is taken; it trims and capitalizes to the empty
string, which is returned as-is — the resolved value is empty yet the
default "Ярославль" is not used. -/
theorem city_resolution_counterexample :
    setup_city (some "   ") "ярославль" = "" ∧ "" ≠ "Ярославль" := by
  refine ⟨rfl, ?_⟩
  decide

/-- C8 amended: a non-empty `--city` flag takes precedence over the prompt
and resolves to its trimmed, capitalized value with no default fallback
(so a flag that trims to empty resolves to the empty string); without a
usable flag the prompt input is trimmed and capitalized and the default
"Ярославль" is substituted exactly when that value is empty; an
empty-string flag falls through to the prompt branch. -/
theorem city_resolution_amended (c p : String) (hc : c ≠ "") :
    setup_city (some c) p = pyCapitalize (pyStrip c) ∧
    setup_city none p =
      (if pyCapitalize (pyStrip p) = "" then "Ярославль"
       else pyCapitalize (pyStrip p)) ∧
    setup_city (some "") p = setup_city none p := by
  have ht : py_truthy (some c) = true := by
    simp [py_truthy, bne_iff_ne, hc]
  refine ⟨?_, ?_, ?_⟩
  · simp [setup_city, ht]
  · simp only [setup_city, py_truthy, Bool.false_eq_true, if_false]
    by_cases hp : pyCapitalize (pyStrip p) = ""
    · simp [hp]
    · simp [hp, bne_iff_ne]
  · rfl

/-- Witness for the amended C8: a padded ASCII flag resolves to its
trimmed, capitalized value, and an empty prompt yields the default. -/
theorem city_resolution_amended_witness :
    setup_city (some "  moscow ") "" = "Moscow" ∧
    setup_city none "" = "Ярославль" := by
  obtain ⟨h1, h2, _⟩ := city_resolution_amended "  moscow " "" (by decide)
  exact ⟨h1.trans (by decide), h2.trans (by decide)⟩

/-- C1: saving the same record again leaves the table unchanged (the
existing row untouched) and the table holds exactly one row for that
five-column tuple; the hypothesis is the table's own uniqueness invariant,
which every table built by `insertOrIgnore` satisfies. -/
theorem store_idempotent (t : Table) (r : OrgRecord)
    (h : List.count r t ≤ 1) :
    (save_to_database (save_to_database t [r]).1 [r]).1 =
      (save_to_database t [r]).1 ∧
    List.count r (save_to_database t [r]).1 = 1 := by
  have hsave : ∀ u : Table, save_to_database u [r] = (insertOrIgnore u r, 1) :=
    fun u => rfl
  rw [hsave, hsave]
  simp only
  unfold insertOrIgnore
  by_cases hm : r ∈ t
  · have h1 : 1 ≤ List.count r t := List.one_le_count_iff.mpr hm
    simp [hm, Nat.le_antisymm h h1]
  · have hm2 : r ∈ t ++ [r] := List.mem_append_right t (List.mem_singleton.mpr rfl)
    simp [hm, hm2, List.count_append, List.count_eq_zero.mpr hm]

/-- Witness for C1: inserting `row_c2` twice into an empty table. -/
theorem store_idempotent_witness :
    List.count row_c2 ([] : Table) ≤ 1 ∧
    ((save_to_database (save_to_database [] [row_c2]).1 [row_c2]).1 =
      (save_to_database ([] : Table) [row_c2]).1 ∧
      List.count row_c2 (save_to_database ([] : Table) [row_c2]).1 = 1) :=
  ⟨by decide, store_idempotent [] row_c2 (by decide)⟩

/-- C2: with an executor that immediately returns the single point feature
"Кафе Уют" at (57.62, 39.89) with no address tags, the retry controller
returns exactly the normalized record (one executor call, no sleeps), and
saving it into a freshly created table stores exactly the row
name="Кафе Уют", address="Тест", lat=57.62, lon=39.89, type="кафе". -/
theorem end_to_end_scenario :
    search_organizations_overpass
      (fun _ => make_overpass_request (some [elem_c2]) "кафе" "Тест") 5 =
      ([row_c2], 1, []) ∧
    save_to_database (create_database none) [row_c2] = ([row_c2], 1) :=
  ⟨rfl, rfl⟩

/-- C3: for every executor behavior that fails on the first `N` endpoint
calls and succeeds on call `N + 1` (0-based call `N`), with
`N < retry_count × 3` endpoints, the controller returns the successful
result `res` (which may be `[]`), makes exactly `N + 1` executor calls (so
none after the success), and performs exactly `N / 3 = attempt_index − 1`
backoff sleeps, the k-th lasting `30 × k` seconds — success lands on
attempt `attempt_index = N / 3 + 1`. -/
theorem retry_controller_spec (ex : Nat → Option (List OrgRecord))
    (R N : Nat) (res : List OrgRecord)
    (hfail : ∀ k, k < N → ex k = none) (hsucc : ex N = some res)
    (hN : N < 3 * R) :
    search_organizations_overpass ex R =
      (res, N + 1, (List.range' 1 (N / 3)).map (fun k => 30 * k)) := by
  unfold search_organizations_overpass
  have h := searchAttempts_success ex (N / 3) 0 R N [] res hfail hsucc
    (by omega) hN
  simpa [List.range_eq_range'] using h

/-- Witness for C3: an executor failing on calls 0–3 and succeeding with
the empty result on call 4 (attempt 2, endpoint 2) returns `([], 5 calls,
one 30-second sleep)`. -/
theorem retry_controller_spec_witness :
    search_organizations_overpass
      (fun k => if k = 4 then some [] else none) 5 = ([], 5, [30]) := by
  have h := retry_controller_spec (fun k => if k = 4 then some [] else none)
    5 4 [] (by decide) (by decide) (by decide)
  simpa using h

/-- C4: when every executor call fails, the controller returns the empty
list (it is a total function — no exception escapes), and the orchestrator
run over the full category list degrades to the remaining categories'
results when the "кафе" executor always fails. -/
theorem exhaustion_non_fatal
    (execFor : String → Nat → Option (List OrgRecord)) (R : Nat)
    (h : ∀ k, execFor "кафе" k = none) :
    (search_organizations_overpass (execFor "кафе") R).1 = [] ∧
    collect_all execFor =
      (search_organizations_overpass (execFor "магазин") 5).1 ++
      ((search_organizations_overpass (execFor "музей") 5).1 ++
      ((search_organizations_overpass (execFor "школа") 5).1 ++
      (search_organizations_overpass (execFor "аптека") 5).1)) := by
  have h1 : ∀ R', (search_organizations_overpass (execFor "кафе") R').1 = [] :=
    fun R' => searchAttempts_exhaust _ R' h _ 0 []
  refine ⟨h1 R, ?_⟩
  show ((categories.map
    (fun c => (search_organizations_overpass (execFor c) 5).1)).flatten) = _
  rw [categories]
  simp only [List.map_cons, List.map_nil, List.flatten_cons, List.flatten_nil,
    List.append_nil]
  rw [h1 5]
  simp

/-- Witness for C4: an executor that always fails for every category. -/
theorem exhaustion_non_fatal_witness :
    (search_organizations_overpass (noExec "кафе") 3).1 = [] ∧
    collect_all noExec = [] :=
  ⟨(exhaustion_non_fatal noExec 3 (fun _ => rfl)).1,
   ((exhaustion_non_fatal noExec 3 (fun _ => rfl)).2).trans rfl⟩

/-- C7, evaluated at the failing input: the table already holds `row_c2`
(from a previous run); saving the one-record batch `[row_c2]` inserts no
new row — the table is unchanged — yet the code's `saved_count` is 1,
because it is incremented after every successfully executed
`INSERT OR IGNORE`, including ignored duplicates. -/
theorem save_count_overcounts :
    (save_to_database [row_c2] [row_c2]).1 = [row_c2] ∧
    (save_to_database [row_c2] [row_c2]).2 = 1 := by
  constructor
  · simp [save_to_database, insertOrIgnore]
  · rfl
